import Mathlib

/-!
Shallow embedding of the bizarrebeastsshowcase animation engine.

Part I embeds the stateless timeline evaluator
(src/components/AnimationStudio/animationEngine.ts): an ordered list of
timed action segments is mapped, for an absolute elapsed time, to a pose
(position offset, rotation, scale, opacity, color, effects).

JavaScript numbers are modelled as rationals.  The ambient math functions
Math.sin, Math.pow and the constant Math.PI are modelled as components of
an abstract environment; Math.random is modelled as a stream of draws
passed to the evaluator, a fresh stream per call (the ambient RNG state
differs between calls).  Division by zero, which yields NaN in JavaScript,
is modelled with Option (none = NaN), and a comparison against NaN is
false.
-/

namespace Showcase

/-- Abstract ambient JS math: Math.sin, Math.pow, Math.PI. -/
structure MathEnv where
  sin : ℚ → ℚ
  pow : ℚ → ℚ → ℚ
  pi : ℚ

/-- JS `v || d` on an optional number: undefined and 0 are falsy. -/
def jsOr (v : Option ℚ) (d : ℚ) : ℚ :=
  match v with
  | none => d
  | some x => if x = 0 then d else x

/-- Truncation toward zero, as JS `%` uses. -/
def jsTrunc (q : ℚ) : ℚ := ((if 0 ≤ q then ⌊q⌋ else ⌈q⌉ : ℤ) : ℚ)

/-- JS remainder `a % b` (sign of the dividend).  A zero modulus gives NaN
in JS; the engine only uses modulus 1, so the zero branch is inert. -/
def jsMod (a b : ℚ) : ℚ := if b = 0 then 0 else a - b * jsTrunc (a / b)

/-- JS division, which yields NaN (here: none) on a zero denominator. -/
def jsDiv (a b : ℚ) : Option ℚ := if b = 0 then none else some (a / b)

/-- EasingType from types.ts. -/
inductive EasingType
  | linear | easeIn | easeOut | easeInOut | bounce | elastic
  deriving DecidableEq, Repr

/-- ActionType from types.ts. -/
inductive ActionType
  | jump | fall | land | idle | flip | spin | bounce | float
  | attack | dodge | hit | roll
  deriving DecidableEq, Repr

/-- ActionParameters from types.ts: a bag of optional numeric fields and
an optional easing selector. -/
structure ActionParameters where
  height : Option ℚ
  distance : Option ℚ
  rotation : Option ℚ
  intensity : Option ℚ
  easing : Option EasingType
  bounceCount : Option ℚ
  speed : Option ℚ
  deriving DecidableEq, Repr

/-- ActionParameters with every field absent. -/
def noParams : ActionParameters := ⟨none, none, none, none, none, none, none⟩

/-- ActionBlockInstance from types.ts (the fields the evaluator reads,
plus the inert identification strings). -/
structure ActionBlockInstance where
  id : String
  definitionId : String
  type : ActionType
  name : String
  duration : ℚ
  parameters : ActionParameters
  deriving DecidableEq, Repr

/-- A motion-blur trail entry pushed onto frame.effects. -/
structure Effect where
  type : String
  opacity : Option ℚ
  color : Option String
  positions : List (ℚ × ℚ)
  deriving DecidableEq, Repr

/-- AnimationFrame from animationEngine.ts. -/
structure AnimationFrame where
  x : ℚ
  y : ℚ
  rotation : ℚ
  scaleX : ℚ
  scaleY : ℚ
  opacity : ℚ
  color : Option String
  effects : List Effect
  deriving DecidableEq, Repr

/-- The frame initialised at the top of calculateAnimation: the
neutral/identity pose. -/
def baseFrame : AnimationFrame := ⟨0, 0, 0, 1, 1, 1, none, []⟩

/-- The easingFunctions record from animationEngine.ts. -/
def easingFunctions (m : MathEnv) : EasingType → ℚ → ℚ
  | .linear, t => t
  | .easeIn, t => t * t
  | .easeOut, t => t * (2 - t)
  | .easeInOut, t => if t < 0.5 then 2 * t * t else -1 + (4 - 2 * t) * t
  | .bounce, t =>
      let n1 : ℚ := 7.5625
      let d1 : ℚ := 2.75
      if t < 1 / d1 then n1 * t * t
      else if t < 2 / d1 then n1 * (t - 1.5 / d1) * (t - 1.5 / d1) + 0.75
      else if t < 2.5 / d1 then n1 * (t - 2.25 / d1) * (t - 2.25 / d1) + 0.9375
      else n1 * (t - 2.625 / d1) * (t - 2.625 / d1) + 0.984375
  | .elastic, t =>
      if t = 0 ∨ t = 1 then t
      else
        let p : ℚ := 0.3
        let s : ℚ := p / 4
        m.pow 2 (-10 * t) * m.sin ((t - s) * (2 * m.pi) / p) + 1

/-- The block-finding loop of calculateAnimation: walk the list
accumulating durations; the block containing currentTime is active, with
local progress (currentTime - accumulated) / duration.  Returns the list
of fully completed prior blocks, the active block, and its progress. -/
def findActive :
    List ActionBlockInstance → ℚ →
      Option (List ActionBlockInstance × ActionBlockInstance × ℚ)
  | [], _ => none
  | b :: rest, t =>
      if 0 ≤ t ∧ t < b.duration then some ([], b, t / b.duration)
      else
        match findActive rest (t - b.duration) with
        | none => none
        | some (pre, blk, p) => some (b :: pre, blk, p)

/-- The per-type switch of calculateAnimation, producing the active
block's own contribution to the frame (before the carry-forward loop).
The draws of Math.random made by the hit case are r 0, r 1, r 2. -/
def blockPose (m : MathEnv) (r : ℕ → ℚ) (b : ActionBlockInstance)
    (eased : ℚ) : AnimationFrame :=
  match b.type with
  | .jump =>
      { baseFrame with
        y := -(jsOr b.parameters.height 100) * m.sin (eased * m.pi)
        x := jsOr b.parameters.distance 0 * eased }
  | .fall =>
      { baseFrame with
        y := jsOr b.parameters.height 100 * eased
        rotation := jsOr b.parameters.rotation 0 * eased }
  | .land =>
      { baseFrame with
        scaleX := 1 + 0.2 * m.sin (eased * m.pi)
        scaleY := 1 - 0.2 * m.sin (eased * m.pi) }
  | .flip =>
      { baseFrame with
        rotation := 360 * eased
        y := -(jsOr b.parameters.height 50) * m.sin (eased * m.pi) }
  | .spin =>
      { baseFrame with rotation := jsOr b.parameters.rotation 360 * eased }
  | .bounce =>
      let bounceCount := jsOr b.parameters.bounceCount 3
      let bouncePhase := jsMod (eased * bounceCount) 1
      { baseFrame with
        y := -(jsOr b.parameters.height 50) * |m.sin (bouncePhase * m.pi)|
        x := jsOr b.parameters.distance 100 * eased }
  | .float =>
      { baseFrame with
        y := -(jsOr b.parameters.height 30) + 10 * m.sin (eased * m.pi * 4)
        x := jsOr b.parameters.distance 0 * eased
        opacity := 0.7 + 0.3 * m.sin (eased * m.pi * 2) }
  | .roll =>
      { baseFrame with
        rotation := 360 * eased * jsOr b.parameters.speed 1
        x := jsOr b.parameters.distance 200 * eased }
  | .attack =>
      { baseFrame with
        x := jsOr b.parameters.distance 50 * m.sin (eased * m.pi)
        scaleX := 1 + 0.3 * m.sin (eased * m.pi)
        color := if eased > 0.5 then some "#EF4444" else some "#4F46E5" }
  | .dodge =>
      let dx := -(jsOr b.parameters.distance 100) * m.sin (eased * m.pi)
      { baseFrame with
        x := dx
        rotation := -20 * m.sin (eased * m.pi)
        effects := [⟨"trail", some 0.3, none,
          [(dx * (1 - 1 * 0.2), 0), (dx * (1 - 2 * 0.2), 0),
           (dx * (1 - 3 * 0.2), 0)]⟩] }
  | .hit =>
      let shakeIntensity := jsOr b.parameters.intensity 10 * (1 - eased)
      { baseFrame with
        x := (r 0 - 0.5) * shakeIntensity
        y := (r 1 - 0.5) * shakeIntensity
        color := some "#EF4444"
        opacity := 0.7 + 0.3 * r 2 }
  | .idle =>
      { baseFrame with
        scaleY := 1 + 0.02 * m.sin (eased * m.pi * 2)
        y := 2 * m.sin (eased * m.pi * 2) }

/-- The accumulate-position loop of calculateAnimation: for each fully
completed prior block, add its raw distance parameter (defaulted to 0)
when its type is jump, bounce, float or roll.  The source also computes
prevEasing(1) into a variable it never reads; that binding is kept. -/
def carryLoop (m : MathEnv) (pre : List ActionBlockInstance) (x0 : ℚ) : ℚ :=
  pre.foldl
    (fun x prevBlock =>
      let prevEasing := easingFunctions m (prevBlock.parameters.easing.getD .linear)
      let _finalProgress := prevEasing 1
      match prevBlock.type with
      | .jump | .bounce | .float | .roll => x + jsOr prevBlock.parameters.distance 0
      | _ => x)
    x0

/-- calculateAnimation from animationEngine.ts.  The empty-list early
return and the no-active-block return both yield the untouched base
frame, so they are merged into the none case of findActive. -/
def calculateAnimation (m : MathEnv) (r : ℕ → ℚ)
    (blocks : List ActionBlockInstance) (currentTime : ℚ) : AnimationFrame :=
  match findActive blocks currentTime with
  | none => baseFrame
  | some (pre, block, blockProgress) =>
      let easing := easingFunctions m (block.parameters.easing.getD .linear)
      let easedProgress := easing blockProgress
      let frame := blockPose m r block easedProgress
      { frame with x := carryLoop m pre frame.x }

/-- Total duration of a timeline: the sum of its blocks' durations. -/
def totalDuration (blocks : List ActionBlockInstance) : ℚ :=
  (blocks.map ActionBlockInstance.duration).sum

/-!
Part II embeds the stateful per-tick movement integrator of the movement
app (the MovementApp animate callback): per-layer behavior state advanced
once per tick by a delta-time, with a sprite-frame sequencer running
before the movement switch.
-/

/-- The two sprite facing / patrol start directions. -/
inductive Facing
  | left | right
  deriving DecidableEq, Repr

/-- The TS type of state.direction is the two-value union 1 | -1. -/
inductive Sign
  | pos | neg
  deriving DecidableEq, Repr

/-- The numeric value of a direction. -/
def Sign.toQ : Sign → ℚ
  | .pos => 1
  | .neg => -1

/-- direction *= -1. -/
def Sign.mulNegOne : Sign → Sign
  | .pos => .neg
  | .neg => .pos

/-- MovementType from the movement app. -/
inductive MovementType
  | none | patrol | bounce | float | jump | flip | stalker | roll | prowl
  deriving DecidableEq, Repr

/-- MovementConfig from the movement app. -/
structure MovementConfig where
  type : MovementType
  speed : ℚ
  amplitude : ℚ
  frequency : ℚ
  patrolWidth : ℚ
  patrolStartDirection : Facing
  flipOnTurn : Bool
  bounceHeight : ℚ
  floatAmount : ℚ
  jumpInterval : ℚ
  stalkerHideTime : ℚ
  stalkerChaseSpeed : ℚ
  deriving DecidableEq, Repr

/-- SpriteFrame from the movement app (the fields the sequencer reads). -/
structure MSpriteFrame where
  id : String
  duration : ℚ
  deriving DecidableEq, Repr

/-- CharacterLayer from the movement app (the fields animate reads):
anchor position, visibility, sprite facing, the sprite list, the
animation sequence (frame id order and loop flag) and the movement
config. -/
structure MLayer where
  x : ℚ
  y : ℚ
  visible : Bool
  spriteFacingDirection : Facing
  sprites : List MSpriteFrame
  frames : List String
  loop : Bool
  movement : MovementConfig
  deriving DecidableEq, Repr

/-- The stalker FSM states. -/
inductive StalkerState
  | hidden | chasing | retreating
  deriving DecidableEq, Repr

/-- AnimationState from the movement app. -/
structure AnimState where
  currentFrameIndex : ℕ
  frameStartTime : ℚ
  currentX : ℚ
  currentY : ℚ
  baseY : ℚ
  direction : Sign
  flipped : Bool
  rotation : ℚ
  bouncePhase : ℚ
  jumpTimer : ℚ
  stalkerState : StalkerState
  stalkerTimer : ℚ
  floatPhase : ℚ
  deriving DecidableEq, Repr

/-- The AnimationState created for a fresh layer in addLayer. -/
def mkInitialState (layer : MLayer) : AnimState where
  currentFrameIndex := 0
  frameStartTime := 0
  currentX := layer.x
  currentY := layer.y
  baseY := layer.y
  direction := if layer.movement.patrolStartDirection == Facing.left then .neg else .pos
  flipped :=
    (layer.spriteFacingDirection == Facing.right
       && layer.movement.patrolStartDirection == Facing.left)
    || (layer.spriteFacingDirection == Facing.left
       && layer.movement.patrolStartDirection == Facing.right)
  rotation := 0
  bouncePhase := 0
  jumpTimer := 0
  stalkerState := .hidden
  stalkerTimer := 0
  floatPhase := 0

/-- The sprite-frame update at the top of the animate tick: look up the
active frame id in the sequence, find its sprite, and if its duration
elapsed advance the index (wrap to 0 when looping, clamp to the last
index when not) and restart the frame clock at now. -/
def seqStep (layer : MLayer) (st : AnimState) (currentTime : ℚ) : AnimState :=
  match layer.frames.get? st.currentFrameIndex with
  | none => st
  | some currentFrameId =>
      match layer.sprites.find? (fun s => s.id == currentFrameId) with
      | none => st
      | some currentFrame =>
          if currentTime - st.frameStartTime ≥ currentFrame.duration then
            let nextIndex := st.currentFrameIndex + 1
            let nextIndex :=
              if nextIndex ≥ layer.frames.length then
                if layer.loop then 0 else layer.frames.length - 1
              else nextIndex
            { st with currentFrameIndex := nextIndex, frameStartTime := currentTime }
          else st

/-- The movement switch of the animate tick, one case per MovementType.
now is the absolute tick time, dt the delta-time. -/
def moveStep (m : MathEnv) (layer : MLayer) (st : AnimState)
    (now dt : ℚ) : AnimState :=
  match layer.movement.type with
  | .none => st
  | .patrol =>
      let patrolSpeed := layer.movement.speed * dt / 1000
      let x1 := st.currentX + patrolSpeed * st.direction.toQ
      let leftBound := layer.x - layer.movement.patrolWidth / 2
      let rightBound := layer.x + layer.movement.patrolWidth / 2
      if x1 ≤ leftBound ∨ x1 ≥ rightBound then
        let newDir := st.direction.mulNegOne
        let newFlipped :=
          if layer.movement.flipOnTurn then
            let movingLeft := newDir == Sign.neg
            (layer.spriteFacingDirection == Facing.right && movingLeft)
              || (layer.spriteFacingDirection == Facing.left && !movingLeft)
          else st.flipped
        { st with
          direction := newDir
          flipped := newFlipped
          currentX := if x1 ≤ leftBound then leftBound else rightBound }
      else { st with currentX := x1 }
  | .bounce =>
      let bouncePhase := st.bouncePhase + dt / 1000
      let bounceY := |m.sin (bouncePhase * layer.movement.frequency)| * layer.movement.bounceHeight
      let currentY := st.baseY - bounceY
      let bounceSpeed := layer.movement.speed * dt / 1000
      let x1 := st.currentX + bounceSpeed * st.direction.toQ
      let leftBound := layer.x - layer.movement.patrolWidth / 2
      let rightBound := layer.x + layer.movement.patrolWidth / 2
      let next :=
        if x1 ≤ leftBound ∨ x1 ≥ rightBound then
          let newDir := st.direction.mulNegOne
          let newFlipped :=
            if layer.movement.flipOnTurn then
              let movingLeft := newDir == Sign.neg
              (layer.spriteFacingDirection == Facing.right && movingLeft)
                || (layer.spriteFacingDirection == Facing.left && !movingLeft)
            else st.flipped
          ((if x1 ≤ leftBound then leftBound else rightBound), newDir, newFlipped)
        else (x1, st.direction, st.flipped)
      let rot :=
        if bounceY > 10 then st.rotation + dt * 0.003 * next.2.1.toQ
        else st.rotation * 0.9
      { st with
        bouncePhase := bouncePhase
        currentY := currentY
        currentX := next.1
        direction := next.2.1
        flipped := next.2.2
        rotation := rot }
  | .float =>
      let floatPhase := st.floatPhase + dt / 1000
      let floatY := m.sin (floatPhase * 2) * layer.movement.floatAmount
      { st with floatPhase := floatPhase, currentY := st.baseY + floatY }
  | .jump =>
      let t1 := st.jumpTimer + dt
      let jumpTimer := if t1 ≥ layer.movement.jumpInterval then 0 else t1
      -- jumpProgress = jumpTimer / jumpInterval; a zero interval gives NaN
      -- in JS, and NaN < 0.5 is false, so the grounded branch runs.
      match jsDiv jumpTimer layer.movement.jumpInterval with
      | none => { st with jumpTimer := jumpTimer, currentY := st.baseY }
      | some jumpProgress =>
          if jumpProgress < 0.5 then
            let jumpPhase := jumpProgress * 2
            let jumpHeight := m.sin (jumpPhase * m.pi) * layer.movement.bounceHeight
            { st with jumpTimer := jumpTimer, currentY := st.baseY - jumpHeight }
          else { st with jumpTimer := jumpTimer, currentY := st.baseY }
  | .flip =>
      let rot := st.rotation + dt * 0.005
      let flipTime := now / 1000
      { st with
        rotation := rot
        currentX := layer.x
          + m.sin (flipTime * layer.movement.speed / 50) * layer.movement.patrolWidth / 2
        currentY := st.baseY
          + m.sin (flipTime * layer.movement.speed / 25 * 2) * layer.movement.amplitude }
  | .stalker =>
      let timer := st.stalkerTimer + dt
      match st.stalkerState with
      | .hidden =>
          if timer ≥ layer.movement.stalkerHideTime then
            { st with stalkerState := .chasing, stalkerTimer := 0 }
          else { st with stalkerTimer := timer }
      | .chasing =>
          let chaseSpeed := layer.movement.stalkerChaseSpeed * dt / 1000
          let x1 := st.currentX + chaseSpeed * st.direction.toQ
          if timer ≥ 1000 then
            { st with
              currentX := x1
              stalkerState := .retreating
              stalkerTimer := 0
              direction := st.direction.mulNegOne }
          else { st with currentX := x1, stalkerTimer := timer }
      | .retreating =>
          let retreatSpeed := layer.movement.speed * dt / 1000
          let targetX := layer.x
          if |st.currentX - targetX| > 5 then
            let dir : ℚ := if targetX > st.currentX then 1 else -1
            { st with currentX := st.currentX + retreatSpeed * dir, stalkerTimer := timer }
          else
            { st with stalkerState := .hidden, stalkerTimer := 0, currentX := targetX }
  | .roll =>
      let rollSpeed := layer.movement.speed * dt / 1000
      let x1 := st.currentX + rollSpeed * st.direction.toQ
      let rot := st.rotation + dt * 0.008 * st.direction.toQ
      let leftBound := layer.x - layer.movement.patrolWidth / 2
      let rightBound := layer.x + layer.movement.patrolWidth / 2
      if x1 ≤ leftBound ∨ x1 ≥ rightBound then
        { st with
          rotation := rot
          direction := st.direction.mulNegOne
          currentX := if x1 ≤ leftBound then leftBound else rightBound }
      else { st with rotation := rot, currentX := x1 }
  | .prowl =>
      let prowlTime := now / 1000
      let prowlX := m.sin (prowlTime * layer.movement.speed / 100) * layer.movement.patrolWidth / 2
      let prevX := layer.x
        + m.sin ((prowlTime - 0.1) * layer.movement.speed / 100) * layer.movement.patrolWidth / 2
      -- the source compares the new offset against the previous absolute
      -- position, exactly as written there
      let movingLeft := prowlX < prevX
      { st with
        currentX := layer.x + prowlX
        currentY := st.baseY + m.sin (prowlTime * 4) * 5
        flipped :=
          (layer.spriteFacingDirection == Facing.right && movingLeft)
            || (layer.spriteFacingDirection == Facing.left && !movingLeft) }

/-- One full per-layer animate tick: the guard chain (invisible layers,
movement type none, empty frame list leave the state untouched), then the
sprite-frame update, then the movement switch. -/
def animateTick (m : MathEnv) (layer : MLayer) (st : AnimState)
    (now dt : ℚ) : AnimState :=
  if !layer.visible || layer.movement.type == MovementType.none then st
  else if layer.frames.length = 0 then st
  else moveStep m layer (seqStep layer st now) now dt

/-- Folding a list of (now, dt) ticks through the per-layer tick. -/
def runTicks (m : MathEnv) (layer : MLayer) (st : AnimState)
    (ticks : List (ℚ × ℚ)) : AnimState :=
  ticks.foldl (fun s p => animateTick m layer s p.1 p.2) st

/-!
Part III embeds the preset-driven app's animate callback (the
gameAnimation presets): the prescribed cyclic sprite sequence and the
interval-gated bounce/jump block.
-/

/-- JS Math.round: round half toward positive infinity. -/
def jsRound (q : ℚ) : ℚ := ((⌊q + 0.5⌋ : ℤ) : ℚ)

/-- The prescribed (frameOrder, frameDurations) sprite sequence of a
preset. -/
structure SpriteSequenceSpec where
  frameOrder : List ℕ
  frameDurations : List ℚ
  deriving DecidableEq, Repr

/-- The movement part of a game preset (the fields animate reads). -/
structure PresetMovement where
  bounceInterval : ℚ
  rotationDuringJump : Bool
  rotationSpeed : ℚ
  deriving DecidableEq, Repr

/-- A game animation preset (the fields animate reads). -/
structure GamePreset where
  enemyType : String
  spriteSequence : SpriteSequenceSpec
  movement : PresetMovement
  deriving DecidableEq, Repr

/-- The preset app's layer fields read by animate. -/
structure PresetLayer where
  x : ℚ
  customPatrolWidth : ℚ
  customJumpHeight : ℚ
  spriteFacingDirection : Facing
  deriving DecidableEq, Repr

/-- The preset app's per-layer animation state (the fields its animate
reads and writes). -/
structure PresetState where
  currentFrameIndex : ℕ
  sequenceIndex : ℕ
  frameStartTime : ℚ
  currentX : ℚ
  currentY : ℚ
  baseY : ℚ
  direction : Sign
  flipped : Bool
  rotation : ℚ
  bounceTimer : ℚ
  isJumping : Bool
  deriving DecidableEq, Repr

/-- The prescribed-sequence handler of the preset animate tick: when the
active frame's duration (defaulted to 100 when absent or 0) has elapsed,
advance the sequence index modulo the frame-order length, resolve the new
frame id, and restart the frame clock at now. -/
def presetSeqStep (preset : GamePreset) (st : PresetState)
    (currentTime : ℚ) : PresetState :=
  if preset.spriteSequence.frameOrder.length > 0 then
    let currentDuration := jsOr (preset.spriteSequence.frameDurations.get? st.sequenceIndex) 100
    if currentTime - st.frameStartTime ≥ currentDuration then
      let newIndex := (st.sequenceIndex + 1) % preset.spriteSequence.frameOrder.length
      { st with
        sequenceIndex := newIndex
        currentFrameIndex := preset.spriteSequence.frameOrder.getD newIndex 0
        frameStartTime := currentTime }
    else st
  else st

/-- The bouncing/jumping block of the preset animate tick, entered only
when bounceInterval > 0: advance the bounce timer, start a jump when the
interval elapsed, and while jumping follow the parabolic trajectory with
optional rotation, ending the jump after half a second. -/
def presetBounceStep (m : MathEnv) (preset : GamePreset) (layer : PresetLayer)
    (st : PresetState) (dt : ℚ) : PresetState :=
  if preset.movement.bounceInterval > 0 then
    let st := { st with bounceTimer := st.bounceTimer + dt }
    let st :=
      if st.bounceTimer ≥ preset.movement.bounceInterval ∧ st.isJumping = false then
        { st with isJumping := true, bounceTimer := 0 }
      else st
    if st.isJumping then
      let jumpProgress := st.bounceTimer / 1000
      let jumpHeight := layer.customJumpHeight
      let t := min (jumpProgress * 2) 1
      let st := { st with currentY := st.baseY - jumpHeight * (1 - m.pow (2 * t - 1) 2) }
      let st :=
        if preset.movement.rotationDuringJump then
          { st with rotation := st.rotation + preset.movement.rotationSpeed * dt * st.direction.toQ }
        else st
      if jumpProgress ≥ 0.5 then
        let st := { st with isJumping := false, currentY := st.baseY }
        if preset.movement.rotationDuringJump then
          { st with rotation := jsRound (st.rotation / (m.pi * 2)) * m.pi * 2 }
        else st
      else st
    else st
  else st

/-!
Derived definitions used by the statements below.
-/

/-- The type of the segment active at time t, when one is active. -/
def activeType (blocks : List ActionBlockInstance) (t : ℚ) : Option ActionType :=
  (findActive blocks t).map (fun res => res.2.1.type)

/-- What the carry loop adds for one completed prior segment: the raw
distance parameter (defaulted to 0) for jump, bounce, float and roll, and
nothing for the other types. -/
def carryContribution (b : ActionBlockInstance) : ℚ :=
  match b.type with
  | .jump | .bounce | .float | .roll => jsOr b.parameters.distance 0
  | _ => 0

/-- Following the claim's words (not the source): the final net
horizontal displacement of a completed drifting segment, the x it would
report at local progress 1 with its own parameters and defaults; 0 for
the non-drifting types. -/
def claimedFinalNet (m : MathEnv) (b : ActionBlockInstance) : ℚ :=
  match b.type with
  | .jump | .bounce | .float | .roll =>
      (blockPose m (fun _ => 0) b
        (easingFunctions m (b.parameters.easing.getD .linear) 1)).x
  | _ => 0

/-- x lies in the closed patrol interval of a layer. -/
def inPatrolRange (layer : MLayer) (x : ℚ) : Prop :=
  layer.x - layer.movement.patrolWidth / 2 ≤ x
    ∧ x ≤ layer.x + layer.movement.patrolWidth / 2

/-!
Concrete fixtures for witnesses and counterexamples.
-/

/-- A concrete math environment (sin and pow constantly zero). -/
def mE : MathEnv := ⟨fun _ => 0, fun _ _ => 0, 0⟩

/-- A random stream that always returns 0. -/
def rZero : ℕ → ℚ := fun _ => 0

/-- A random stream that always returns 1. -/
def rOne : ℕ → ℚ := fun _ => 1

/-- A hit segment of 100 ms with default parameters. -/
def hitBlock : ActionBlockInstance := ⟨"b-hit", "def-hit", .hit, "Hit", 100, noParams⟩

/-- A jump segment of 500 ms with default parameters. -/
def jumpBlockW : ActionBlockInstance := ⟨"b-jump", "def-jump", .jump, "Jump", 500, noParams⟩

/-- A bounce segment of 100 ms with no distance parameter. -/
def cexBounce : ActionBlockInstance := ⟨"b-bounce", "def-bounce", .bounce, "Bounce", 100, noParams⟩

/-- An idle segment of 100 ms. -/
def cexIdle : ActionBlockInstance := ⟨"b-idle", "def-idle", .idle, "Idle", 100, noParams⟩

/-- A completed default bounce followed by an idle segment. -/
def cexBlocks : List ActionBlockInstance := [cexBounce, cexIdle]

/-- Three sprite frames of 100 ms each. -/
def spritesABC : List MSpriteFrame := [⟨"f0", 100⟩, ⟨"f1", 100⟩, ⟨"f2", 100⟩]

/-- A movement config of a given type with the app's default numbers. -/
def cfgOf (ty : MovementType) : MovementConfig :=
  ⟨ty, 50, 30, 2, 200, .right, true, 100, 20, 2000, 3000, 100⟩

/-- A visible layer with the three-frame non-looping sequence and no
movement, for the clamp scenario. -/
def clampLayer : MLayer :=
  ⟨0, 0, true, .right, spritesABC, ["f0", "f1", "f2"], false, cfgOf .none⟩

/-- A visible patrolling layer anchored at 500. -/
def patrolLayer : MLayer :=
  ⟨500, 500, true, .right, spritesABC, ["f0", "f1", "f2"], true, cfgOf .patrol⟩

/-- A visible bouncing layer anchored at 500. -/
def bounceLayer : MLayer :=
  ⟨500, 500, true, .right, spritesABC, ["f0", "f1", "f2"], true, cfgOf .bounce⟩

/-- A visible jumping layer whose jumpInterval is 0. -/
def jumpLayer0 : MLayer :=
  ⟨500, 500, true, .right, spritesABC, ["f0", "f1", "f2"], true,
    ⟨.jump, 50, 30, 2, 200, .right, true, 100, 20, 0, 3000, 100⟩⟩

/-- A visible stalker layer anchored at 500. -/
def stalkLayer : MLayer :=
  ⟨500, 500, true, .right, spritesABC, ["f0", "f1", "f2"], true, cfgOf .stalker⟩

/-- A retreating stalker state within 5 px of the anchor. -/
def stRetreat : AnimState :=
  { mkInitialState stalkLayer with stalkerState := .retreating, currentX := 503 }

/-- A preset whose bounceInterval is 0. -/
def presetC : GamePreset := ⟨"rex", ⟨[0, 1, 2], [100, 100, 100]⟩, ⟨0, true, 5⟩⟩

/-- A preset whose bounceInterval is 0 does not need more layer data than
this. -/
def playerC : PresetLayer := ⟨100, 200, 50, .right⟩

/-- A preset state at rest on its baseline. -/
def pstC : PresetState := ⟨0, 0, 0, 100, 300, 300, .pos, false, 0, 0, false⟩

/-- A preset with a three-entry prescribed cyclic sequence. -/
def presetCyc : GamePreset := ⟨"beetle", ⟨[2, 0, 1], [100, 100, 100]⟩, ⟨1500, false, 2⟩⟩

/-!
Supporting lemmas.
-/

/-- With non-negative durations, no block is active at or past the total
duration. -/
theorem findActive_eq_none_of_total_le (blocks : List ActionBlockInstance)
    (t : ℚ) (hd : ∀ b ∈ blocks, 0 ≤ b.duration)
    (ht : totalDuration blocks ≤ t) : findActive blocks t = none := by
  induction blocks generalizing t with
  | nil => rfl
  | cons b rest ih =>
      have hsum : b.duration + (rest.map ActionBlockInstance.duration).sum ≤ t := by
        simpa [totalDuration] using ht
      have hrest : 0 ≤ (rest.map ActionBlockInstance.duration).sum := by
        apply List.sum_nonneg
        intro q hq
        obtain ⟨c, hc, rfl⟩ := List.mem_map.mp hq
        exact hd c (List.mem_cons_of_mem _ hc)
      have hnot : ¬ (0 ≤ t ∧ t < b.duration) := by
        rintro ⟨-, hlt⟩
        linarith
      unfold findActive
      rw [if_neg hnot, ih (t - b.duration)
        (fun c hc => hd c (List.mem_cons_of_mem _ hc)) (by simp [totalDuration]; linarith)]

/-- With non-negative durations, no block is active at a negative time. -/
theorem findActive_eq_none_of_neg (blocks : List ActionBlockInstance)
    (t : ℚ) (hd : ∀ b ∈ blocks, 0 ≤ b.duration)
    (ht : t < 0) : findActive blocks t = none := by
  induction blocks generalizing t with
  | nil => rfl
  | cons b rest ih =>
      have hb := hd b (List.mem_cons_self _ _)
      have hnot : ¬ (0 ≤ t ∧ t < b.duration) := by
        rintro ⟨hle, -⟩
        linarith
      unfold findActive
      rw [if_neg hnot, ih (t - b.duration)
        (fun c hc => hd c (List.mem_cons_of_mem _ hc)) (by linarith)]

/-- The carry loop adds exactly the sum of the per-block carry
contributions. -/
theorem carryLoop_eq_sum (m : MathEnv) (pre : List ActionBlockInstance)
    (x0 : ℚ) : carryLoop m pre x0 = x0 + (pre.map carryContribution).sum := by
  induction pre generalizing x0 with
  | nil => simp [carryLoop]
  | cons b rest ih =>
      have hstep :
          carryLoop m (b :: rest) x0 = carryLoop m rest (x0 + carryContribution b) := by
        simp only [carryLoop, List.foldl_cons]
        congr 1
        cases htype : b.type <;> simp [carryContribution, htype]
      rw [hstep, ih, List.map_cons, List.sum_cons]
      ring

/-- The pose of the active block depends on the random stream only for
hit segments. -/
theorem blockPose_random_irrel (m : MathEnv) (r1 r2 : ℕ → ℚ)
    (b : ActionBlockInstance) (eased : ℚ) (hb : b.type ≠ ActionType.hit) :
    blockPose m r1 b eased = blockPose m r2 b eased := by
  unfold blockPose
  cases htype : b.type <;> first | rfl | exact absurd htype hb

/-!
Claim theorems.
-/

/-- C10: evaluating an empty segment list at any time, negative times
included, returns the identity pose: x 0, y 0, rotation 0, scale 1,
opacity 1, no color, no effects. -/
theorem empty_timeline_identity (m : MathEnv) (r : ℕ → ℚ) (t : ℚ) :
    calculateAnimation m r [] t = ⟨0, 0, 0, 1, 1, 1, none, []⟩ := rfl

/-- C3: with the data model's non-negative segment durations, every query
at or past the total duration returns the neutral pose, so any two such
queries agree, and every query at a negative time (before the timeline's
start) also returns the neutral pose; no error is possible. -/
theorem timeline_boundary_idempotent (m : MathEnv) (r : ℕ → ℚ)
    (blocks : List ActionBlockInstance) (t1 t2 : ℚ)
    (hd : ∀ b ∈ blocks, 0 ≤ b.duration)
    (h1 : totalDuration blocks ≤ t1) (h2 : totalDuration blocks ≤ t2) :
    calculateAnimation m r blocks t1 = calculateAnimation m r blocks t2
    ∧ calculateAnimation m r blocks t1 = baseFrame
    ∧ ∀ t < 0, calculateAnimation m r blocks t = baseFrame := by
  have e1 : calculateAnimation m r blocks t1 = baseFrame := by
    unfold calculateAnimation
    rw [findActive_eq_none_of_total_le blocks t1 hd h1]
  have e2 : calculateAnimation m r blocks t2 = baseFrame := by
    unfold calculateAnimation
    rw [findActive_eq_none_of_total_le blocks t2 hd h2]
  refine ⟨e1.trans e2.symm, e1, fun t ht => ?_⟩
  unfold calculateAnimation
  rw [findActive_eq_none_of_neg blocks t hd ht]

/-- Witness for C3 at a one-block timeline queried at 100 and 250 ms. -/
theorem timeline_boundary_idempotent_witness :
    calculateAnimation mE rZero [hitBlock] 100 = calculateAnimation mE rZero [hitBlock] 250
    ∧ calculateAnimation mE rZero [hitBlock] 100 = baseFrame :=
  ⟨(timeline_boundary_idempotent mE rZero [hitBlock] 100 250 (by decide)
      (by norm_num [totalDuration, hitBlock]) (by norm_num [totalDuration, hitBlock])).1,
   (timeline_boundary_idempotent mE rZero [hitBlock] 100 250 (by decide)
      (by norm_num [totalDuration, hitBlock]) (by norm_num [totalDuration, hitBlock])).2.1⟩

/-- C1 counterexample: two evaluations of the same hit timeline at the
same time with different ambient Math.random draws return different
poses, so the evaluator is not deterministic when the active segment is a
hit. -/
theorem timeline_not_deterministic_on_hit :
    calculateAnimation mE rZero [hitBlock] 0 ≠ calculateAnimation mE rOne [hitBlock] 0 := by
  norm_num [calculateAnimation, findActive, blockPose, hitBlock, mE, rZero, rOne,
    noParams, jsOr, baseFrame, easingFunctions, carryLoop]

/-- C1 (amended): the timeline evaluator gives identical poses for
identical arguments whenever the active segment at t is not a hit; hit
segments read the ambient RNG, so their poses may differ between calls
(the stream of Math.random draws is the only call-to-call difference
modelled). -/
theorem timeline_deterministic_unless_hit (m : MathEnv) (r1 r2 : ℕ → ℚ)
    (blocks : List ActionBlockInstance) (t : ℚ)
    (h : activeType blocks t ≠ some ActionType.hit) :
    calculateAnimation m r1 blocks t = calculateAnimation m r2 blocks t := by
  unfold calculateAnimation
  cases hfa : findActive blocks t with
  | none => rfl
  | some res =>
      obtain ⟨pre, b, p⟩ := res
      have hb : b.type ≠ ActionType.hit := by
        intro hEq
        apply h
        rw [activeType, hfa]
        simp [hEq]
      have hpose := blockPose_random_irrel m r1 r2 b
        (easingFunctions m (b.parameters.easing.getD .linear) p) hb
      simp only [hpose]

/-- Witness for C1 at a one-block jump timeline queried at 50 ms with two
different random streams. -/
theorem timeline_deterministic_unless_hit_witness :
    calculateAnimation mE rZero [jumpBlockW] 50 = calculateAnimation mE rOne [jumpBlockW] 50 :=
  timeline_deterministic_unless_hit mE rZero rOne [jumpBlockW] 50
    (by norm_num [activeType, findActive, jumpBlockW]; decide)

/-- C2 counterexample: in the timeline bounce-then-idle, the active idle
segment at 150 ms contributes x = 0, and the claim's carry-forward (the
completed default bounce's x at local progress 1, which is 100 from its
in-segment default distance) predicts pose x = 100; the evaluator's carry
loop instead adds the raw distance parameter defaulted to 0, so the pose
x is 0. -/
theorem carry_forward_claim_fails :
    findActive cexBlocks 150 = some ([cexBounce], cexIdle, 1/2)
    ∧ (calculateAnimation mE rZero cexBlocks 150).x
        ≠ (blockPose mE rZero cexIdle
            (easingFunctions mE (cexIdle.parameters.easing.getD .linear) (1/2))).x
          + ([cexBounce].map (claimedFinalNet mE)).sum := by
  constructor
  · norm_num [findActive, cexBlocks, cexBounce, cexIdle]
  · norm_num [calculateAnimation, findActive, blockPose, claimedFinalNet,
      cexBlocks, cexBounce, cexIdle, mE, rZero, noParams, jsOr, baseFrame,
      easingFunctions, carryLoop, jsMod, jsTrunc]

/-- C2 (amended): whenever a segment is active, the pose's x equals the
active segment's own x contribution plus a carry-forward drift that is
the sum, over every fully completed prior segment of type jump, bounce,
float or roll, of that segment's raw distance parameter defaulted to 0
(not of its in-segment x at progress 1, whose bounce/roll defaults are
100 and 200); land, flip, spin, attack, dodge, hit and idle (and fall)
contribute nothing. -/
theorem carry_forward_amended (m : MathEnv) (r : ℕ → ℚ)
    (blocks : List ActionBlockInstance) (t : ℚ)
    (pre : List ActionBlockInstance) (b : ActionBlockInstance) (p : ℚ)
    (h : findActive blocks t = some (pre, b, p)) :
    (calculateAnimation m r blocks t).x
      = (blockPose m r b (easingFunctions m (b.parameters.easing.getD .linear) p)).x
        + (pre.map carryContribution).sum := by
  unfold calculateAnimation
  rw [h]
  exact carryLoop_eq_sum m pre _

/-- Witness for C2 at the bounce-then-idle timeline queried at 150 ms. -/
theorem carry_forward_amended_witness :
    (calculateAnimation mE rZero cexBlocks 150).x
      = (blockPose mE rZero cexIdle
          (easingFunctions mE (cexIdle.parameters.easing.getD .linear) (1/2))).x
        + ([cexBounce].map carryContribution).sum :=
  carry_forward_amended mE rZero cexBlocks 150 [cexBounce] cexIdle (1/2)
    (by norm_num [findActive, cexBlocks, cexBounce, cexIdle])

/-- The sprite-frame update leaves every movement field unchanged: it
only writes the frame index and the frame clock. -/
theorem seqStep_preserves (layer : MLayer) (st : AnimState) (now : ℚ) :
    (seqStep layer st now).currentX = st.currentX
    ∧ (seqStep layer st now).currentY = st.currentY
    ∧ (seqStep layer st now).baseY = st.baseY
    ∧ (seqStep layer st now).direction = st.direction
    ∧ (seqStep layer st now).flipped = st.flipped
    ∧ (seqStep layer st now).jumpTimer = st.jumpTimer
    ∧ (seqStep layer st now).stalkerState = st.stalkerState
    ∧ (seqStep layer st now).stalkerTimer = st.stalkerTimer
    ∧ (seqStep layer st now).bouncePhase = st.bouncePhase
    ∧ (seqStep layer st now).rotation = st.rotation
    ∧ (seqStep layer st now).floatPhase = st.floatPhase := by
  refine ⟨?_, ?_, ?_, ?_, ?_, ?_, ?_, ?_, ?_, ?_, ?_⟩ <;>
    (unfold seqStep
     repeat' split
     all_goals rfl)

/-- One movement step of a patrol, bounce or roll layer keeps x inside
the closed patrol interval. -/
theorem moveStep_stays_inPatrolRange (m : MathEnv) (layer : MLayer)
    (st : AnimState) (now dt : ℚ)
    (htype : layer.movement.type = .patrol ∨ layer.movement.type = .bounce
      ∨ layer.movement.type = .roll)
    (hx : inPatrolRange layer st.currentX) :
    inPatrolRange layer (moveStep m layer st now dt).currentX := by
  obtain ⟨h1, h2⟩ := hx
  unfold moveStep
  rcases htype with h | h | h <;> rw [h] <;>
    · simp only [inPatrolRange]
      split_ifs with hb hlb <;> simp only [] <;> constructor <;>
        first
          | linarith
          | (rcases not_or.mp hb with ⟨hl, hr⟩; push_neg at hl hr; linarith)

/-- C5: starting inside the closed patrol interval, a patrol, bounce or
roll layer's x stays inside that interval after every tick of any tick
sequence (boundary crossings are clamped exactly to the boundary). -/
theorem patrol_bounce_roll_x_bounded (m : MathEnv) (layer : MLayer)
    (st : AnimState) (ticks : List (ℚ × ℚ))
    (htype : layer.movement.type = .patrol ∨ layer.movement.type = .bounce
      ∨ layer.movement.type = .roll)
    (hdt : ∀ p ∈ ticks, 0 ≤ p.2)
    (hx : inPatrolRange layer st.currentX) :
    inPatrolRange layer (runTicks m layer st ticks).currentX := by
  induction ticks generalizing st with
  | nil => exact hx
  | cons p ps ih =>
      have hone : inPatrolRange layer (animateTick m layer st p.1 p.2).currentX := by
        unfold animateTick
        split_ifs with hg hg2
        · exact hx
        · exact hx
        · exact moveStep_stays_inPatrolRange m layer _ p.1 p.2 htype
            (by rw [(seqStep_preserves layer st p.1).1]; exact hx)
      have hrun : runTicks m layer st (p :: ps)
          = runTicks m layer (animateTick m layer st p.1 p.2) ps := rfl
      rw [hrun]
      exact ih (animateTick m layer st p.1 p.2)
        (fun q hq => hdt q (List.mem_cons_of_mem _ hq)) hone

/-- Witness for C5: a patrolling layer starting at its anchor stays in
range over three concrete ticks. -/
theorem patrol_bounce_roll_x_bounded_witness :
    inPatrolRange patrolLayer
      (runTicks mE patrolLayer (mkInitialState patrolLayer)
        [(16, 16), (32, 16), (5000, 4968)]).currentX :=
  patrol_bounce_roll_x_bounded mE patrolLayer (mkInitialState patrolLayer)
    [(16, 16), (32, 16), (5000, 4968)]
    (Or.inl rfl)
    (by norm_num)
    (by norm_num [inPatrolRange, mkInitialState, patrolLayer, cfgOf])

/-- On the two-value direction type, not moving left is moving right. -/
theorem Sign.not_beq_neg (s : Sign) : (!(s == Sign.neg)) = (s == Sign.pos) := by
  cases s <;> rfl

/-- C6: in a patrol step with flipOnTurn enabled, if the moved x crosses
a patrol boundary (a turn), the resulting flipped flag equals the
invariant: the sprite faces right and the actor now moves left, or the
sprite faces left and the actor now moves right; and the flipped flag set
at actor creation satisfies the same invariant against the starting
direction. -/
theorem patrol_flip_invariant (m : MathEnv) (layer : MLayer)
    (st : AnimState) (now dt : ℚ) :
    (layer.movement.type = .patrol → layer.movement.flipOnTurn = true →
      (st.currentX + layer.movement.speed * dt / 1000 * st.direction.toQ
          ≤ layer.x - layer.movement.patrolWidth / 2
        ∨ st.currentX + layer.movement.speed * dt / 1000 * st.direction.toQ
          ≥ layer.x + layer.movement.patrolWidth / 2) →
      (moveStep m layer st now dt).flipped
        = ((layer.spriteFacingDirection == Facing.right
              && (moveStep m layer st now dt).direction == Sign.neg)
           || (layer.spriteFacingDirection == Facing.left
              && (moveStep m layer st now dt).direction == Sign.pos)))
    ∧ (mkInitialState layer).flipped
        = ((layer.spriteFacingDirection == Facing.right
              && (mkInitialState layer).direction == Sign.neg)
           || (layer.spriteFacingDirection == Facing.left
              && (mkInitialState layer).direction == Sign.pos)) := by
  constructor
  · intro htype hflip hturn
    unfold moveStep
    rw [htype]
    simp only []
    rw [if_pos hturn, hflip]
    simp only [if_true]
    rw [Sign.not_beq_neg]
  · unfold mkInitialState
    cases hf : layer.spriteFacingDirection <;>
      cases hd : layer.movement.patrolStartDirection <;>
        simp [hf, hd]

/-- Witness for C6: a patrolling layer at its right boundary with a
positive step turns and flips as the invariant prescribes. -/
theorem patrol_flip_invariant_witness :
    (moveStep mE patrolLayer
        { mkInitialState patrolLayer with currentX := 600 } 16 16).flipped
      = ((patrolLayer.spriteFacingDirection == Facing.right
            && (moveStep mE patrolLayer
                { mkInitialState patrolLayer with currentX := 600 } 16 16).direction
              == Sign.neg)
         || (patrolLayer.spriteFacingDirection == Facing.left
            && (moveStep mE patrolLayer
                { mkInitialState patrolLayer with currentX := 600 } 16 16).direction
              == Sign.pos))
    ∧ (mkInitialState patrolLayer).flipped
        = ((patrolLayer.spriteFacingDirection == Facing.right
              && (mkInitialState patrolLayer).direction == Sign.neg)
           || (patrolLayer.spriteFacingDirection == Facing.left
              && (mkInitialState patrolLayer).direction == Sign.pos)) :=
  ⟨(patrol_flip_invariant mE patrolLayer
      { mkInitialState patrolLayer with currentX := 600 } 16 16).1 rfl rfl
      (by simp [mkInitialState, patrolLayer, cfgOf, Sign.toQ]; norm_num),
   (patrol_flip_invariant mE patrolLayer
      { mkInitialState patrolLayer with currentX := 600 } 16 16).2⟩

/-- C4: one movement step of a stalker layer realizes the 3-state FSM.
Hidden: the timer counts up and x and direction are untouched; once the
updated timer reaches stalkerHideTime the state becomes Chasing with the
timer reset.  Chasing: x advances by stalkerChaseSpeed in the current
direction; once the updated timer reaches the fixed 1000 ms the state
becomes Retreating with the direction reversed and the timer reset.
Retreating: while more than 5 px from anchor.x, x moves toward anchor.x
at speed; on the first tick within 5 px the state returns to Hidden with
the timer reset and x set to anchor.x exactly. -/
theorem stalker_fsm_step (m : MathEnv) (layer : MLayer) (st : AnimState)
    (now dt : ℚ) (htype : layer.movement.type = .stalker) :
    (st.stalkerState = .hidden →
      (moveStep m layer st now dt).currentX = st.currentX
      ∧ (moveStep m layer st now dt).direction = st.direction
      ∧ (st.stalkerTimer + dt ≥ layer.movement.stalkerHideTime →
          (moveStep m layer st now dt).stalkerState = .chasing
          ∧ (moveStep m layer st now dt).stalkerTimer = 0)
      ∧ (¬ st.stalkerTimer + dt ≥ layer.movement.stalkerHideTime →
          (moveStep m layer st now dt).stalkerState = .hidden
          ∧ (moveStep m layer st now dt).stalkerTimer = st.stalkerTimer + dt))
    ∧ (st.stalkerState = .chasing →
      (moveStep m layer st now dt).currentX
        = st.currentX + layer.movement.stalkerChaseSpeed * dt / 1000 * st.direction.toQ
      ∧ (st.stalkerTimer + dt ≥ 1000 →
          (moveStep m layer st now dt).stalkerState = .retreating
          ∧ (moveStep m layer st now dt).stalkerTimer = 0
          ∧ (moveStep m layer st now dt).direction = st.direction.mulNegOne)
      ∧ (¬ st.stalkerTimer + dt ≥ 1000 →
          (moveStep m layer st now dt).stalkerState = .chasing
          ∧ (moveStep m layer st now dt).stalkerTimer = st.stalkerTimer + dt
          ∧ (moveStep m layer st now dt).direction = st.direction))
    ∧ (st.stalkerState = .retreating →
      (|st.currentX - layer.x| > 5 →
          (moveStep m layer st now dt).stalkerState = .retreating
          ∧ (moveStep m layer st now dt).currentX
            = st.currentX + layer.movement.speed * dt / 1000
                * (if layer.x > st.currentX then 1 else -1))
      ∧ (¬ |st.currentX - layer.x| > 5 →
          (moveStep m layer st now dt).stalkerState = .hidden
          ∧ (moveStep m layer st now dt).stalkerTimer = 0
          ∧ (moveStep m layer st now dt).currentX = layer.x)) := by
  unfold moveStep
  rw [htype]
  simp only []
  refine ⟨fun hs => ?_, fun hs => ?_, fun hs => ?_⟩ <;> rw [hs] <;> simp only []
  · by_cases ht : st.stalkerTimer + dt ≥ layer.movement.stalkerHideTime
    · rw [if_pos ht]
      exact ⟨rfl, rfl, fun _ => ⟨rfl, rfl⟩, fun hcon => absurd ht hcon⟩
    · rw [if_neg ht]
      exact ⟨rfl, rfl, fun hcon => absurd hcon ht, fun _ => ⟨rfl, rfl⟩⟩
  · by_cases ht : st.stalkerTimer + dt ≥ 1000
    · rw [if_pos ht]
      exact ⟨rfl, fun _ => ⟨rfl, rfl, rfl⟩, fun hcon => absurd ht hcon⟩
    · rw [if_neg ht]
      exact ⟨rfl, fun hcon => absurd hcon ht, fun _ => ⟨rfl, rfl, rfl⟩⟩
  · by_cases hfar : |st.currentX - layer.x| > 5
    · rw [if_pos hfar]
      exact ⟨fun _ => ⟨rfl, rfl⟩, fun hcon => absurd hfar hcon⟩
    · rw [if_neg hfar]
      exact ⟨fun hcon => absurd hcon hfar, fun _ => ⟨rfl, rfl, rfl⟩⟩

/-- Witness for C4: a retreating stalker 3 px from its anchor snaps to
the anchor exactly and returns to Hidden. -/
theorem stalker_fsm_step_witness :
    (moveStep mE stalkLayer stRetreat 16 16).stalkerState = StalkerState.hidden
    ∧ (moveStep mE stalkLayer stRetreat 16 16).stalkerTimer = 0
    ∧ (moveStep mE stalkLayer stRetreat 16 16).currentX = stalkLayer.x :=
  ((stalker_fsm_step mE stalkLayer stRetreat 16 16 rfl).2.2
    (by norm_num [stRetreat, mkInitialState, stalkLayer])).2
    (by norm_num [stRetreat, mkInitialState, stalkLayer])

/-- A bounce movement step keeps currentY within bounceHeight below the
baseline (relative to its unchanged baseY) and leaves the jump timer
alone. -/
theorem moveStep_bounce_y (m : MathEnv) (layer : MLayer) (st : AnimState)
    (now dt : ℚ)
    (hsin : ∀ q, |m.sin q| ≤ 1)
    (hH : 0 ≤ layer.movement.bounceHeight)
    (htype : layer.movement.type = .bounce) :
    st.baseY - layer.movement.bounceHeight ≤ (moveStep m layer st now dt).currentY
    ∧ (moveStep m layer st now dt).currentY ≤ st.baseY
    ∧ (moveStep m layer st now dt).baseY = st.baseY
    ∧ (moveStep m layer st now dt).jumpTimer = st.jumpTimer := by
  unfold moveStep
  rw [htype]
  simp only []
  refine ⟨?_, ?_, ?_, ?_⟩
  · have h1 : |m.sin ((st.bouncePhase + dt / 1000) * layer.movement.frequency)|
        * layer.movement.bounceHeight ≤ layer.movement.bounceHeight :=
      mul_le_of_le_one_left hH (hsin _)
    linarith
  · have h2 : 0 ≤ |m.sin ((st.bouncePhase + dt / 1000) * layer.movement.frequency)|
        * layer.movement.bounceHeight :=
      mul_nonneg (abs_nonneg _) hH
    linarith
  · trivial
  · trivial

/-- A jump movement step keeps currentY within bounceHeight below the
baseline and the jump timer non-negative; the zero-interval NaN path
lands exactly on the baseline. -/
theorem moveStep_jump_y (m : MathEnv) (layer : MLayer) (st : AnimState)
    (now dt : ℚ)
    (hsin1 : ∀ q, |m.sin q| ≤ 1)
    (hsin2 : ∀ q, 0 ≤ q → q ≤ m.pi → 0 ≤ m.sin q)
    (hpi : 0 ≤ m.pi)
    (hH : 0 ≤ layer.movement.bounceHeight)
    (hdt : 0 ≤ dt) (htimer : 0 ≤ st.jumpTimer)
    (htype : layer.movement.type = .jump) :
    st.baseY - layer.movement.bounceHeight ≤ (moveStep m layer st now dt).currentY
    ∧ (moveStep m layer st now dt).currentY ≤ st.baseY
    ∧ (moveStep m layer st now dt).baseY = st.baseY
    ∧ 0 ≤ (moveStep m layer st now dt).jumpTimer := by
  unfold moveStep
  rw [htype]
  simp only []
  set timer := (if st.jumpTimer + dt ≥ layer.movement.jumpInterval then 0
    else st.jumpTimer + dt) with htm
  have htimer2 : (0:ℚ) ≤ timer := by
    rw [htm]
    split_ifs with h
    · exact le_refl 0
    · linarith
  by_cases hi0 : layer.movement.jumpInterval = 0
  · simp only [jsDiv, hi0, if_pos]
    exact ⟨by linarith, le_refl _, trivial, htimer2⟩
  · simp only [jsDiv, if_neg hi0]
    have hp : 0 ≤ timer / layer.movement.jumpInterval := by
      rcases lt_or_gt_of_ne hi0 with hneg | hposi
      · have hz : timer = 0 := by
          rw [htm, if_pos (by linarith)]
        rw [hz, zero_div]
      · exact div_nonneg htimer2 (le_of_lt hposi)
    by_cases hlt : timer / layer.movement.jumpInterval < 0.5
    · rw [if_pos hlt]
      have harg1 : 0 ≤ timer / layer.movement.jumpInterval * 2 * m.pi :=
        mul_nonneg (by linarith) hpi
      have harg2 : timer / layer.movement.jumpInterval * 2 * m.pi ≤ m.pi := by
        apply mul_le_of_le_one_left hpi
        norm_num at hlt ⊢
        linarith
      have hs0 : 0 ≤ m.sin (timer / layer.movement.jumpInterval * 2 * m.pi) :=
        hsin2 _ harg1 harg2
      have hs1 : m.sin (timer / layer.movement.jumpInterval * 2 * m.pi) ≤ 1 :=
        (abs_le.mp (hsin1 _)).2
      have hub := mul_le_of_le_one_left hH hs1
      have hlb := mul_nonneg hs0 hH
      exact ⟨by linarith, by linarith, rfl, htimer2⟩
    · rw [if_neg hlt]
      exact ⟨by linarith, le_refl _, rfl, htimer2⟩

/-- One full tick of a visible bounce or jump layer with a non-empty
frame list keeps currentY within bounceHeight below the unchanged
baseline and the jump timer non-negative. -/
theorem animateTick_y_step (m : MathEnv) (layer : MLayer) (st : AnimState)
    (now dt : ℚ)
    (hsin1 : ∀ q, |m.sin q| ≤ 1)
    (hsin2 : ∀ q, 0 ≤ q → q ≤ m.pi → 0 ≤ m.sin q)
    (hpi : 0 ≤ m.pi)
    (hH : 0 ≤ layer.movement.bounceHeight)
    (htype : layer.movement.type = .bounce ∨ layer.movement.type = .jump)
    (hvis : layer.visible = true)
    (hfr : layer.frames.length ≠ 0)
    (hdt : 0 ≤ dt) (htimer : 0 ≤ st.jumpTimer) :
    (animateTick m layer st now dt).baseY - layer.movement.bounceHeight
        ≤ (animateTick m layer st now dt).currentY
    ∧ (animateTick m layer st now dt).currentY ≤ (animateTick m layer st now dt).baseY
    ∧ (animateTick m layer st now dt).baseY = st.baseY
    ∧ 0 ≤ (animateTick m layer st now dt).jumpTimer := by
  have hg : (!layer.visible || layer.movement.type == MovementType.none) = false := by
    rcases htype with h | h <;> rw [hvis, h] <;> rfl
  unfold animateTick
  rw [hg]
  simp only [Bool.false_eq_true, if_false]
  rw [if_neg hfr]
  obtain ⟨hx, hy, hb, hd, hf, hj, -⟩ := seqStep_preserves layer st now
  rcases htype with h | h
  · obtain ⟨b1, b2, b3, b4⟩ :=
      moveStep_bounce_y m layer (seqStep layer st now) now dt hsin1 hH h
    rw [hb] at b1 b2 b3
    rw [hj] at b4
    exact ⟨by rw [b3]; linarith, by rw [b3]; linarith, b3, by rw [b4]; exact htimer⟩
  · obtain ⟨b1, b2, b3, b4⟩ :=
      moveStep_jump_y m layer (seqStep layer st now) now dt hsin1 hsin2 hpi hH hdt
        (by rw [hj]; exact htimer) h
    rw [hb] at b1 b2 b3
    exact ⟨by rw [b3]; linarith, by rw [b3]; linarith, b3, b4⟩

/-- C7: over any non-empty tick sequence with non-negative delta-times, a
visible bounce or jump layer's currentY stays between its baseline and
bounceHeight above it (vertical offset ≤ 0 with magnitude at most
bounceHeight), assuming Math.sin stays in [-1, 1] and is non-negative on
[0, pi]. -/
theorem bounce_jump_y_bounded (m : MathEnv) (layer : MLayer) (st : AnimState)
    (ticks : List (ℚ × ℚ))
    (hsin1 : ∀ q, |m.sin q| ≤ 1)
    (hsin2 : ∀ q, 0 ≤ q → q ≤ m.pi → 0 ≤ m.sin q)
    (hpi : 0 ≤ m.pi)
    (hH : 0 ≤ layer.movement.bounceHeight)
    (htype : layer.movement.type = .bounce ∨ layer.movement.type = .jump)
    (hvis : layer.visible = true)
    (hfr : layer.frames.length ≠ 0)
    (hdt : ∀ p ∈ ticks, 0 ≤ p.2)
    (htimer : 0 ≤ st.jumpTimer)
    (hne : ticks ≠ []) :
    (runTicks m layer st ticks).baseY - layer.movement.bounceHeight
        ≤ (runTicks m layer st ticks).currentY
    ∧ (runTicks m layer st ticks).currentY ≤ (runTicks m layer st ticks).baseY := by
  induction ticks generalizing st with
  | nil => exact absurd rfl hne
  | cons p ps ih =>
      have hstep := animateTick_y_step m layer st p.1 p.2 hsin1 hsin2 hpi hH htype hvis hfr
        (hdt p (List.mem_cons_self _ _)) htimer
      by_cases hps : ps = []
      · subst hps
        exact ⟨hstep.1, hstep.2.1⟩
      · have hrun : runTicks m layer st (p :: ps)
            = runTicks m layer (animateTick m layer st p.1 p.2) ps := rfl
        rw [hrun]
        exact ih (animateTick m layer st p.1 p.2)
          (fun q hq => hdt q (List.mem_cons_of_mem _ hq)) hstep.2.2.2 hps


/-- Witness for C7: one 16 ms tick of a visible bouncing layer. -/
theorem bounce_jump_y_bounded_witness :
    (runTicks mE bounceLayer (mkInitialState bounceLayer) [(16, 16)]).baseY
        - bounceLayer.movement.bounceHeight
      ≤ (runTicks mE bounceLayer (mkInitialState bounceLayer) [(16, 16)]).currentY
    ∧ (runTicks mE bounceLayer (mkInitialState bounceLayer) [(16, 16)]).currentY
      ≤ (runTicks mE bounceLayer (mkInitialState bounceLayer) [(16, 16)]).baseY :=
  bounce_jump_y_bounded mE bounceLayer (mkInitialState bounceLayer) [(16, 16)]
    (by intro q; norm_num [mE])
    (by intro q h1 h2; norm_num [mE])
    (by norm_num [mE])
    (by norm_num [bounceLayer, cfgOf])
    (Or.inl rfl)
    rfl
    (by norm_num [bounceLayer])
    (by norm_num)
    (by norm_num [mkInitialState])
    (by simp)

/-- C8: a non-positive interval disables the periodic behavior.  For the
movement app's jump: with jumpInterval ≤ 0 the timer resets to 0 and, via
the NaN comparison (interval = 0) or the zero progress (interval < 0),
the grounded branch runs, so currentY = baseY and no division-by-zero
fault occurs.  For the preset app's bounce: bounceInterval ≤ 0 fails the
bounceInterval > 0 guard, so the block changes nothing. -/
theorem nonpositive_interval_disables :
    (∀ (m : MathEnv) (layer : MLayer) (st : AnimState) (now dt : ℚ),
        layer.movement.type = .jump → layer.movement.jumpInterval ≤ 0 →
        m.sin 0 = 0 → 0 ≤ dt → 0 ≤ st.jumpTimer →
        (moveStep m layer st now dt).currentY = st.baseY
        ∧ (moveStep m layer st now dt).jumpTimer = 0)
    ∧ (∀ (m : MathEnv) (preset : GamePreset) (layer : PresetLayer)
        (st : PresetState) (dt : ℚ),
        preset.movement.bounceInterval ≤ 0 →
        presetBounceStep m preset layer st dt = st) := by
  constructor
  · intro m layer st now dt htype hint hsin0 hdt htimer
    unfold moveStep
    rw [htype]
    simp only []
    have hreset : st.jumpTimer + dt ≥ layer.movement.jumpInterval := by linarith
    rw [if_pos hreset]
    by_cases hi0 : layer.movement.jumpInterval = 0
    · simp only [jsDiv, hi0, if_pos]
      exact ⟨trivial, trivial⟩
    · simp only [jsDiv, if_neg hi0, zero_div]
      rw [if_pos (by norm_num : (0:ℚ) < 0.5)]
      constructor
      · simp [hsin0]
      · rfl
  · intro m preset layer st dt hint
    unfold presetBounceStep
    rw [if_neg (by linarith)]

/-- Witness for C8: the jump layer with interval 0 at one 16 ms tick, and
the zero-interval preset bounce block. -/
theorem nonpositive_interval_disables_witness :
    ((moveStep mE jumpLayer0 (mkInitialState jumpLayer0) 16 16).currentY
        = (mkInitialState jumpLayer0).baseY
      ∧ (moveStep mE jumpLayer0 (mkInitialState jumpLayer0) 16 16).jumpTimer = 0)
    ∧ presetBounceStep mE presetC playerC pstC 16 = pstC :=
  ⟨nonpositive_interval_disables.1 mE jumpLayer0 (mkInitialState jumpLayer0) 16 16
      rfl (by norm_num [jumpLayer0]) rfl (by norm_num) (by norm_num [mkInitialState]),
   nonpositive_interval_disables.2 mE presetC playerC pstC 16
      (by norm_num [presetC])⟩

/-- C9: the frame sequencer advance rule.  Explicit sequences: on a tick
where the active frame's duration has elapsed, the index advances, wraps
to 0 at the end when looping and clamps to the last index when not, and
the frame clock restarts at now.  Prescribed cyclic sequences: the
sequence index always wraps modulo the frame-order length and the frame
clock restarts at now.  Concretely, with loop=false and three 100 ms
frames, ticking every 100 ms up to t=1000 leaves the index clamped at
2. -/
theorem frame_sequencer_advance :
    (∀ (layer : MLayer) (st : AnimState) (now : ℚ) (fid : String)
        (fr : MSpriteFrame),
      layer.frames.get? st.currentFrameIndex = some fid →
      layer.sprites.find? (fun s => s.id == fid) = some fr →
      now - st.frameStartTime ≥ fr.duration →
      (seqStep layer st now).currentFrameIndex
        = (if st.currentFrameIndex + 1 ≥ layer.frames.length then
             if layer.loop then 0 else layer.frames.length - 1
           else st.currentFrameIndex + 1)
      ∧ (seqStep layer st now).frameStartTime = now)
    ∧ (∀ (preset : GamePreset) (st : PresetState) (now : ℚ),
      preset.spriteSequence.frameOrder.length > 0 →
      now - st.frameStartTime
          ≥ jsOr (preset.spriteSequence.frameDurations.get? st.sequenceIndex) 100 →
      (presetSeqStep preset st now).sequenceIndex
        = (st.sequenceIndex + 1) % preset.spriteSequence.frameOrder.length
      ∧ (presetSeqStep preset st now).frameStartTime = now)
    ∧ (([100, 200, 300, 1000] : List ℚ).foldl
         (fun s tnow => seqStep clampLayer s tnow)
         (mkInitialState clampLayer)).currentFrameIndex = 2 := by
  refine ⟨?_, ?_, ?_⟩
  · intro layer st now fid fr hget hfind hdur
    unfold seqStep
    rw [hget]
    simp only []
    rw [hfind]
    simp only []
    rw [if_pos hdur]
    exact ⟨rfl, rfl⟩
  · intro preset st now hlen hdur
    unfold presetSeqStep
    rw [if_pos hlen]
    simp only []
    rw [if_pos hdur]
    exact ⟨rfl, rfl⟩
  · have h0 : mkInitialState clampLayer
        = ⟨0, 0, 0, 0, 0, .pos, false, 0, 0, 0, .hidden, 0, 0⟩ := by decide
    have hfr : clampLayer.frames = ["f0", "f1", "f2"] := rfl
    have hsp : clampLayer.sprites = [⟨"f0", 100⟩, ⟨"f1", 100⟩, ⟨"f2", 100⟩] := rfl
    have hloop : clampLayer.loop = false := rfl
    have b0 : ("f0" == "f0") = true := by decide
    have b1 : ("f0" == "f1") = false := by decide
    have b2 : ("f1" == "f1") = true := by decide
    have b3 : ("f0" == "f2") = false := by decide
    have b4 : ("f1" == "f2") = false := by decide
    have b5 : ("f2" == "f2") = true := by decide
    rw [h0]
    norm_num [seqStep, List.foldl, List.find?, hfr, hsp, hloop, b0, b1, b2, b3, b4, b5]

/-- Witness for C9: the first tick of the clamp scenario advances from
index 0 to index 1 and restarts the frame clock, and a prescribed
three-frame preset wraps its index. -/
theorem frame_sequencer_advance_witness :
    ((seqStep clampLayer (mkInitialState clampLayer) 100).currentFrameIndex
        = (if (mkInitialState clampLayer).currentFrameIndex + 1 ≥ clampLayer.frames.length
           then if clampLayer.loop then 0 else clampLayer.frames.length - 1
           else (mkInitialState clampLayer).currentFrameIndex + 1)
      ∧ (seqStep clampLayer (mkInitialState clampLayer) 100).frameStartTime = 100)
    ∧ ((presetSeqStep presetCyc ⟨0, 2, 0, 0, 0, 0, .pos, false, 0, 0, false⟩ 120).sequenceIndex
        = (2 + 1) % presetCyc.spriteSequence.frameOrder.length
      ∧ (presetSeqStep presetCyc ⟨0, 2, 0, 0, 0, 0, .pos, false, 0, 0, false⟩ 120).frameStartTime
        = 120) :=
  ⟨frame_sequencer_advance.1 clampLayer (mkInitialState clampLayer) 100 "f0" ⟨"f0", 100⟩
      (by norm_num [clampLayer, mkInitialState])
      (by norm_num [clampLayer, spritesABC, List.find?])
      (by norm_num [mkInitialState]),
   frame_sequencer_advance.2.1 presetCyc ⟨0, 2, 0, 0, 0, 0, .pos, false, 0, 0, false⟩ 120
      (by norm_num [presetCyc])
      (by norm_num [presetCyc, jsOr])⟩


end Showcase
